import Mathlib

/-!
Shallow embedding of the `useFetchData` custom React hook
(`src/hooks/useFetchData.js`, shown in the repository README) and the facts
its specification states about it.

The hook keeps three pieces of state, created by `useState`:

  const [data, setData] = useState(null);
  const [loading, setLoading] = useState(true);
  const [error, setError] = useState(null);

and one async function `fetchData` (returned to the consumer as `refetch`):

  const fetchData = async () => {
    setLoading(true);
    console.log(chalk.blue(`Fetching data from: ` + url));
    try {
      const response = await fetch(url, options);
      if (!response.ok) throw new Error("Failed to fetch data");
      const result = await response.json();
      console.log(chalk.green("Data fetched successfully!"), result);
      setData(result);
    } catch (err) {
      console.log(chalk.red("Error fetching data:"), err.message);
      setError(err.message);
    } finally {
      setLoading(false);
    }
  };

The payload type is opaque to the hook, so the embedding is parametric in a
payload type `α`; the `options` bag is an opaque pass-through, parametric in
`σ`.  The external transport (what `fetch`/`response.json()` do at the two
`await` suspension points) is modelled by the `Transport` type below, and one
complete attempt is the pure function `fetchData` on the hook state.
-/

/-- The observable state of one hook instance: the three `useState` cells
`data`, `loading`, `error`.  `data` is `none` until a decode succeeds;
`error` holds the string passed to `setError` — `none` models the JS
`null`/`undefined` (never set, or set to an absent `err.message`). -/
structure FetchState (α : Type) where
  data : Option α
  loading : Bool
  error : Option String
  deriving DecidableEq, Repr

/-- `useState(null) / useState(true) / useState(null)`: the state a fresh
hook instance starts from. -/
def initialState (α : Type) : FetchState α :=
  { data := none, loading := true, error := none }

/-- A JavaScript exception value as the catch block sees it: its `message`
property may be absent (`none` models reading `err.message` off a value with
no such property, which yields `undefined`). -/
structure JsError where
  message : Option String
  deriving DecidableEq, Repr

/-- What `await response.json()` yields: the decoded structured body, or a
rejection (decode failure) carrying an exception. -/
inductive BodyResult (α : Type) where
  | decoded (v : α)
  | jsonRejected (e : JsError)
  deriving DecidableEq, Repr

/-- The part of a Fetch-API `Response` the hook reads: the status line and
the body behaviour.  `ok` is not stored; the Fetch standard derives it from
the status code. -/
structure HttpResponse (α : Type) where
  statusCode : Nat
  statusText : String
  body : BodyResult α
  deriving DecidableEq, Repr

/-- `Response.ok` per the Fetch standard: true exactly when the status code
is in the 2xx success range. -/
def HttpResponse.ok (r : HttpResponse α) : Bool :=
  200 ≤ r.statusCode && r.statusCode ≤ 299

/-- The transport's behaviour during one attempt: `fetch` either rejects
with an exception or resolves to a response. -/
inductive Transport (α : Type) where
  | reject (e : JsError)
  | respond (r : HttpResponse α)
  deriving DecidableEq, Repr

/-- One diagnostic console line, tagged with the chalk colour used:
`info` = blue attempt-started line, `success` = green line logged together
with the decoded result, `error` = red line logged together with
`err.message` (possibly absent). -/
inductive LogLine (α : Type) where
  | info (text : String)
  | success (text : String) (value : α)
  | error (text : String) (message : Option String)
  deriving DecidableEq, Repr

/-- The closure environment of the hook: the `url` and `options` arguments
of `useFetchData(url, options = {})`, captured by `fetchData`. -/
structure Hook (σ : Type) where
  url : String
  options : σ
  deriving DecidableEq, Repr

/-- The request `fetchData` hands to the transport: `fetch(url, options)`
with exactly the hook's captured locator and config. -/
structure FetchRequest (σ : Type) where
  url : String
  options : σ
  deriving DecidableEq, Repr

/-- State effect of the synchronous prefix of `fetchData`: `setLoading(true)`
runs before the first `await`. -/
def startAttempt (s : FetchState α) : FetchState α :=
  { s with loading := true }

/-- The request issued by an attempt: `fetch(url, options)` on the hook's
own `url` and `options`. -/
def issuedRequest (h : Hook σ) : FetchRequest σ :=
  { url := h.url, options := h.options }

/-- Everything `fetchData` does synchronously, before its first suspension
point: set `loading` to true, emit the blue attempt-started line, and issue
the request.  `refetch` is this very function (the hook returns
`refetch: fetchData`), so each `refetch` call runs this prefix first. -/
def refetchSync (h : Hook σ) (s : FetchState α) :
    FetchState α × LogLine α × FetchRequest σ :=
  (startAttempt s, LogLine.info ("Fetching data from: " ++ h.url), issuedRequest h)

/-- State effect of the rest of the attempt (the continuation after the
suspension points), given the transport's behaviour `t`:
  - `fetch` rejected → catch: `setError(err.message)`;
  - response not ok → `throw new Error("Failed to fetch data")`, caught →
    `setError("Failed to fetch data")`;
  - body decode rejected → catch: `setError(err.message)`;
  - body decoded → `setData(result)`;
and in every case the finally block runs `setLoading(false)`. -/
def settleAttempt (t : Transport α) (s : FetchState α) : FetchState α :=
  match t with
  | Transport.reject e => { s with error := e.message, loading := false }
  | Transport.respond r =>
      if r.ok then
        match r.body with
        | BodyResult.decoded v => { s with data := some v, loading := false }
        | BodyResult.jsonRejected e => { s with error := e.message, loading := false }
      else
        { s with error := some "Failed to fetch data", loading := false }

/-- The console line the settling half of the attempt emits: the green
success line with the decoded result, or the red error line with
`err.message`. -/
def settleLog (t : Transport α) : LogLine α :=
  match t with
  | Transport.reject e => LogLine.error "Error fetching data:" e.message
  | Transport.respond r =>
      if r.ok then
        match r.body with
        | BodyResult.decoded v => LogLine.success "Data fetched successfully!" v
        | BodyResult.jsonRejected e => LogLine.error "Error fetching data:" e.message
      else
        LogLine.error "Error fetching data:" (some "Failed to fetch data")

/-- One complete, uninterleaved attempt of `fetchData`: the synchronous
prefix followed by the settling continuation, together with the console
lines emitted, in order. -/
def fetchData (h : Hook σ) (t : Transport α) (s : FetchState α) :
    FetchState α × List (LogLine α) :=
  (settleAttempt t (refetchSync h s).1, [(refetchSync h s).2.1, settleLog t])

/-- The exception, if any, raised inside the try block during the attempt:
the `fetch` rejection, the `new Error("Failed to fetch data")` thrown on a
non-ok response, or the `response.json()` rejection. -/
def thrownError (t : Transport α) : Option JsError :=
  match t with
  | Transport.reject e => some e
  | Transport.respond r =>
      if r.ok then
        match r.body with
        | BodyResult.decoded _ => none
        | BodyResult.jsonRejected e => some e
      else
        some { message := some "Failed to fetch data" }

/-- Whether the attempt reaches `setData` (response ok and body decoded),
i.e. completes without entering the catch block. -/
def attemptSucceeds (t : Transport α) : Bool :=
  match t with
  | Transport.reject _ => false
  | Transport.respond r =>
      if r.ok then
        match r.body with
        | BodyResult.decoded _ => true
        | BodyResult.jsonRejected _ => false
      else
        false

/-- The status the spec derives from `loading`/`error`/`data`, in the order
the consumer checks them (`loading` first, then `error`). -/
inductive Status where
  | pending
  | succeeded
  | failed
  deriving DecidableEq, Repr

/-- Derived status of a hook state. -/
def status (s : FetchState α) : Status :=
  if s.loading then Status.pending
  else if s.error.isSome then Status.failed
  else Status.succeeded

/-- A sequence of complete (non-overlapping) attempts, run left to right:
the mount-time attempt and any later `refetch` calls, each transported by
the corresponding element of `ts`. -/
def runAttempts (h : Hook σ) (ts : List (Transport α)) (s : FetchState α) :
    FetchState α :=
  ts.foldl (fun s t => (fetchData h t s).1) s

/-- Two overlapping attempts of one hook instance: A's synchronous prefix
runs, then B's (B triggered before A resolves), then B's continuation
settles, then A's continuation settles last. -/
def raceRun (tA tB : Transport α) (s : FetchState α) : FetchState α :=
  settleAttempt tA (settleAttempt tB (startAttempt (startAttempt s)))

/-- At most one of the `data` and `error` cells is populated. -/
def atMostOne (s : FetchState α) : Prop :=
  s.data = none ∨ s.error = none

instance [DecidableEq α] (s : FetchState α) : Decidable (atMostOne s) := by
  unfold atMostOne
  infer_instance

/-- The hook instance created by `Users.jsx`:
`useFetchData("https://jsonplaceholder.typicode.com/users")` with the
defaulted empty options bag. -/
def usersHook : Hook Unit :=
  { url := "https://jsonplaceholder.typicode.com/users", options := () }

/-! ### Helper lemmas about one attempt -/

/-- Case analysis of the settling half of an attempt: either an exception was
thrown inside the try block and the catch branch sets `error` to its message,
or the body decoded and `setData` stores the payload. -/
theorem settleAttempt_cases (t : Transport α) (s : FetchState α) :
    (∃ e, thrownError t = some e ∧ attemptSucceeds t = false ∧
        settleAttempt t s = { s with error := e.message, loading := false }) ∨
    (∃ v, thrownError t = none ∧ attemptSucceeds t = true ∧
        settleAttempt t s = { s with data := some v, loading := false }) := by
  cases t with
  | reject e => exact Or.inl ⟨e, rfl, rfl, rfl⟩
  | respond r =>
      cases hok : r.ok with
      | false =>
          refine Or.inl ⟨{ message := some "Failed to fetch data" }, ?_, ?_, ?_⟩ <;>
            simp [thrownError, attemptSucceeds, settleAttempt, hok]
      | true =>
          cases hb : r.body with
          | decoded v =>
              refine Or.inr ⟨v, ?_, ?_, ?_⟩ <;>
                simp [thrownError, attemptSucceeds, settleAttempt, hok, hb]
          | jsonRejected e =>
              refine Or.inl ⟨e, ?_, ?_, ?_⟩ <;>
                simp [thrownError, attemptSucceeds, settleAttempt, hok, hb]

/-- The finally block always runs: `loading` is false after settling. -/
theorem settleAttempt_loading (t : Transport α) (s : FetchState α) :
    (settleAttempt t s).loading = false := by
  rcases settleAttempt_cases t s with ⟨e, _, _, hEq⟩ | ⟨v, _, _, hEq⟩ <;> rw [hEq]

/-- A successful attempt never touches the `error` cell. -/
theorem settleAttempt_error_of_succeeds (t : Transport α) (s : FetchState α)
    (ht : attemptSucceeds t = true) : (settleAttempt t s).error = s.error := by
  rcases settleAttempt_cases t s with ⟨e, _, hfail, _⟩ | ⟨v, _, _, hEq⟩
  · rw [ht] at hfail; exact Bool.noConfusion hfail
  · rw [hEq]

/-- An attempt that enters the catch branch never touches the `data` cell. -/
theorem settleAttempt_data_of_fails (t : Transport α) (s : FetchState α)
    (ht : attemptSucceeds t = false) : (settleAttempt t s).data = s.data := by
  rcases settleAttempt_cases t s with ⟨e, _, _, hEq⟩ | ⟨v, _, hsucc, _⟩
  · rw [hEq]
  · rw [ht] at hsucc; exact Bool.noConfusion hsucc

/-- When an exception is thrown inside the try block, the catch branch stores
exactly `err.message` and the finally block clears `loading`. -/
theorem settleAttempt_of_thrown (t : Transport α) (s : FetchState α) (e : JsError)
    (hthrow : thrownError t = some e) :
    settleAttempt t s = { s with error := e.message, loading := false } := by
  rcases settleAttempt_cases t s with ⟨e2, he2, _, hEq⟩ | ⟨v, hnone, _, _⟩
  · rw [hthrow] at he2
    rw [Option.some.injEq] at he2
    rw [he2]
    exact hEq
  · rw [hthrow] at hnone
    exact Option.noConfusion hnone

/-- The state half of `fetchData` is the settling continuation applied to the
synchronous prefix. -/
theorem fetchData_fst (h : Hook σ) (t : Transport α) (s : FetchState α) :
    (fetchData h t s).1 = settleAttempt t (startAttempt s) := rfl

/-- Peeling one attempt off a sequence of attempts. -/
theorem runAttempts_cons (h : Hook σ) (t : Transport α) (ts : List (Transport α))
    (s : FetchState α) :
    runAttempts h (t :: ts) s = runAttempts h ts (fetchData h t s).1 := rfl

/-- A sequence of attempts that all succeed never touches the `error` cell. -/
theorem runAttempts_error_of_all_succeed (h : Hook σ) :
    ∀ (ts : List (Transport α)) (s : FetchState α),
      (∀ t ∈ ts, attemptSucceeds t = true) → (runAttempts h ts s).error = s.error := by
  intro ts
  induction ts with
  | nil => intro s _; rfl
  | cons t ts ih =>
      intro s hall
      have ht : attemptSucceeds t = true := hall t (List.mem_cons_self t ts)
      have hrest : ∀ x ∈ ts, attemptSucceeds x = true :=
        fun x hx => hall x (List.mem_cons_of_mem t hx)
      have hstep : ((fetchData h t s).1).error = s.error :=
        settleAttempt_error_of_succeeds t (startAttempt s) ht
      rw [runAttempts_cons, ih (fetchData h t s).1 hrest, hstep]

/-- A sequence of attempts that all fail never touches the `data` cell. -/
theorem runAttempts_data_of_all_fail (h : Hook σ) :
    ∀ (ts : List (Transport α)) (s : FetchState α),
      (∀ t ∈ ts, attemptSucceeds t = false) → (runAttempts h ts s).data = s.data := by
  intro ts
  induction ts with
  | nil => intro s _; rfl
  | cons t ts ih =>
      intro s hall
      have ht : attemptSucceeds t = false := hall t (List.mem_cons_self t ts)
      have hrest : ∀ x ∈ ts, attemptSucceeds x = false :=
        fun x hx => hall x (List.mem_cons_of_mem t hx)
      have hstep : ((fetchData h t s).1).data = s.data :=
        settleAttempt_data_of_fails t (startAttempt s) ht
      rw [runAttempts_cons, ih (fetchData h t s).1 hrest, hstep]

/-! ### Claim C1 -/

/-- C1, counterexample to the claim as stated: after a failed attempt
(`fetch` rejects with message "boom"), a successful attempt of the same hook
instance decodes `42`, yet `error` is still "boom" — the success path never
calls `setError(null)`, so the failure message is not null. -/
theorem C1_counterexample :
    (fetchData usersHook
        (Transport.respond
          { statusCode := 200, statusText := "OK", body := BodyResult.decoded (42 : Nat) })
        (fetchData usersHook (Transport.reject { message := some "boom" })
          (initialState Nat)).1).1.error = some "boom" ∧
    (fetchData usersHook
        (Transport.respond
          { statusCode := 200, statusText := "OK", body := BodyResult.decoded (42 : Nat) })
        (fetchData usersHook (Transport.reject { message := some "boom" })
          (initialState Nat)).1).1.data = some 42 := by
  decide

/-- C1 (amended): for every fetch attempt whose transport response is
successful (2xx) and whose body decodes, the final state has `data` equal to
the decoded payload and `loading` false; `error` is null provided it was
null going into the attempt (as on a fresh instance with no earlier failed
attempt) — an error message left by an earlier failed attempt is retained,
not cleared. -/
theorem C1_success_state (h : Hook σ) (r : HttpResponse α) (v : α) (s : FetchState α)
    (hok : r.ok = true) (hb : r.body = BodyResult.decoded v) (hs : s.error = none) :
    (fetchData h (Transport.respond r) s).1.data = some v ∧
    (fetchData h (Transport.respond r) s).1.loading = false ∧
    (fetchData h (Transport.respond r) s).1.error = none ∧
    status (fetchData h (Transport.respond r) s).1 = Status.succeeded := by
  have h1 : (fetchData h (Transport.respond r) s).1 =
      { s with data := some v, loading := false } := by
    rw [fetchData_fst]
    simp [settleAttempt, startAttempt, hok, hb]
  rw [h1]
  refine ⟨rfl, rfl, hs, ?_⟩
  simp [status, hs]

/-- C1 witness: the amended theorem applied to a concrete 200-OK response
decoding `5` from the initial state. -/
theorem C1_success_state_witness :
    (fetchData usersHook
        (Transport.respond
          { statusCode := 200, statusText := "OK", body := BodyResult.decoded (5 : Nat) })
        (initialState Nat)).1.data = some 5 ∧
    (fetchData usersHook
        (Transport.respond
          { statusCode := 200, statusText := "OK", body := BodyResult.decoded (5 : Nat) })
        (initialState Nat)).1.loading = false ∧
    (fetchData usersHook
        (Transport.respond
          { statusCode := 200, statusText := "OK", body := BodyResult.decoded (5 : Nat) })
        (initialState Nat)).1.error = none ∧
    status (fetchData usersHook
        (Transport.respond
          { statusCode := 200, statusText := "OK", body := BodyResult.decoded (5 : Nat) })
        (initialState Nat)).1 = Status.succeeded :=
  C1_success_state usersHook
    { statusCode := 200, statusText := "OK", body := BodyResult.decoded (5 : Nat) }
    5 (initialState Nat) (by decide) rfl rfl

/-! ### Claim C2 -/

/-- C2, counterexample to the claimed invariant: the two-attempt sequence
"succeed with payload 7, then fail with message timeout" is reachable from
the fresh state and leaves `data` and `error` both populated at once. -/
theorem C2_counterexample :
    runAttempts usersHook
        [Transport.respond
            { statusCode := 200, statusText := "OK", body := BodyResult.decoded (7 : Nat) },
          Transport.reject { message := some "timeout" }]
        (initialState Nat) =
      { data := some 7, loading := false, error := some "timeout" } ∧
    ¬ atMostOne (runAttempts usersHook
        [Transport.respond
            { statusCode := 200, statusText := "OK", body := BodyResult.decoded (7 : Nat) },
          Transport.reject { message := some "timeout" }]
        (initialState Nat)) := by
  decide

/-- C2 (amended): at most one of `data` and `error` is populated as long as
the completed attempts of the instance all had the same kind of outcome (all
reached `setData`, or all entered the catch branch); a success following a
failure, or vice versa, can leave both populated, because neither branch
clears the other branch's cell. -/
theorem C2_at_most_one (h : Hook σ) (ts : List (Transport α))
    (hsame : (∀ t ∈ ts, attemptSucceeds t = true) ∨ (∀ t ∈ ts, attemptSucceeds t = false)) :
    atMostOne (runAttempts h ts (initialState α)) := by
  cases hsame with
  | inl hall =>
      right
      rw [runAttempts_error_of_all_succeed h ts (initialState α) hall]
      rfl
  | inr hall =>
      left
      rw [runAttempts_data_of_all_fail h ts (initialState α) hall]
      rfl

/-- C2 witness: the amended theorem applied to a concrete mount-plus-refetch
sequence of two failing attempts. -/
theorem C2_at_most_one_witness :
    atMostOne (runAttempts usersHook
      [Transport.reject { message := some "x" },
        Transport.respond
          { statusCode := 500, statusText := "Internal Server Error",
            body := BodyResult.decoded (1 : Nat) }]
      (initialState Nat)) :=
  C2_at_most_one usersHook _ (Or.inr (by decide))

/-! ### Claim C3 -/

/-- C3: every attempt whose response has a non-2xx status settles with
`error` exactly the fixed string "Failed to fetch data", `loading` false and
derived status Failed; the message is the same for every non-ok response, so
the original status code and status text never appear in it. -/
theorem C3_fixed_message (h : Hook σ) (r : HttpResponse α) (s : FetchState α)
    (hok : r.ok = false) :
    (fetchData h (Transport.respond r) s).1.error = some "Failed to fetch data" ∧
    (fetchData h (Transport.respond r) s).1.loading = false ∧
    status (fetchData h (Transport.respond r) s).1 = Status.failed ∧
    (∀ r2 : HttpResponse α, r2.ok = false →
      (fetchData h (Transport.respond r2) s).1.error =
        (fetchData h (Transport.respond r) s).1.error) := by
  have h1 : ∀ r0 : HttpResponse α, r0.ok = false →
      (fetchData h (Transport.respond r0) s).1 =
        { s with error := some "Failed to fetch data", loading := false } := by
    intro r0 h0
    rw [fetchData_fst]
    simp [settleAttempt, startAttempt, h0]
  rw [h1 r hok]
  refine ⟨rfl, rfl, by simp [status], ?_⟩
  intro r2 h2
  rw [h1 r2 h2]

/-- C3 witness: a concrete 404 Not Found response yields the fixed message,
whatever the body would have decoded to. -/
theorem C3_fixed_message_witness :
    (fetchData usersHook
        (Transport.respond
          { statusCode := 404, statusText := "Not Found",
            body := BodyResult.decoded (9 : Nat) })
        (initialState Nat)).1.error = some "Failed to fetch data" :=
  (C3_fixed_message usersHook
    { statusCode := 404, statusText := "Not Found", body := BodyResult.decoded (9 : Nat) }
    (initialState Nat) (by decide)).1

/-! ### Claim C4 -/

/-- C4, counterexample to the claim as stated: when `fetch` rejects with an
exception whose `message` property is absent, the catch branch stores
`err.message` — the absent value — so `error` stays null and no generic
message is substituted; on a fresh instance the attempt then does not even
present as Failed (derived status is Succeeded). -/
theorem C4_counterexample :
    (fetchData usersHook (Transport.reject { message := none })
        (initialState Nat)).1.error = none ∧
    status (fetchData usersHook (Transport.reject { message := none })
        (initialState Nat)).1 = Status.succeeded := by
  decide

/-- C4 (amended): every exception raised by the request, the status check or
the body decode is caught — the attempt still completes, clearing `loading` —
and `error` is set to exactly the exception's `message` property: the message
text verbatim when available, and the absent value (not a generic message)
when the exception has none. `data` is untouched either way. -/
theorem C4_caught_message (h : Hook σ) (t : Transport α) (e : JsError) (s : FetchState α)
    (hthrow : thrownError t = some e) :
    (fetchData h t s).1.error = e.message ∧
    (fetchData h t s).1.loading = false ∧
    (fetchData h t s).1.data = s.data := by
  have h1 : (fetchData h t s).1 = { s with error := e.message, loading := false } := by
    rw [fetchData_fst]
    exact settleAttempt_of_thrown t (startAttempt s) e hthrow
  rw [h1]
  exact ⟨rfl, rfl, rfl⟩

/-- C4 witness: the amended theorem applied to a concrete network rejection
carrying the message "oops", from a state already holding data 3. -/
theorem C4_caught_message_witness :
    (fetchData usersHook (Transport.reject { message := some "oops" })
        { data := some 3, loading := false, error := none }).1.error = some "oops" ∧
    (fetchData usersHook (Transport.reject { message := some "oops" })
        { data := some 3, loading := false, error := none }).1.loading = false ∧
    (fetchData usersHook (Transport.reject { message := some "oops" })
        ({ data := some 3, loading := false, error := none } : FetchState Nat)).1.data =
      ({ data := some 3, loading := false, error := none } : FetchState Nat).data :=
  C4_caught_message usersHook (Transport.reject { message := some "oops" })
    { message := some "oops" } { data := some 3, loading := false, error := none } rfl

/-! ### Claim C5 -/

/-- C5: every completed attempt, whatever the transport did, ends with
`loading` false — the finally block always runs — so the controller is never
still Pending, and its derived status is exactly one of the two settled
outcomes, Succeeded or Failed. -/
theorem C5_settled (h : Hook σ) (t : Transport α) (s : FetchState α) :
    (fetchData h t s).1.loading = false ∧
    status (fetchData h t s).1 ≠ Status.pending ∧
    (status (fetchData h t s).1 = Status.succeeded ∨
      status (fetchData h t s).1 = Status.failed) := by
  have hload : (fetchData h t s).1.loading = false := by
    rw [fetchData_fst]
    exact settleAttempt_loading t (startAttempt s)
  have hst : status (fetchData h t s).1 = Status.succeeded ∨
      status (fetchData h t s).1 = Status.failed := by
    by_cases he : ((fetchData h t s).1).error.isSome
    · right; simp [status, hload, he]
    · left; simp [status, hload, he]
  refine ⟨hload, ?_, hst⟩
  cases hst with
  | inl h1 => rw [h1]; intro hc; exact Status.noConfusion hc
  | inr h1 => rw [h1]; intro hc; exact Status.noConfusion hc

/-! ### Claim C6 -/

/-- C6: every `refetch` call (and the mount-time call — `refetch` is the very
`fetchData` closure the hook returns) sets `loading` to true in its
synchronous prefix, before the first suspension point, and issues the request
against the hook's own captured `url` and `options`; the full attempt is the
settling continuation applied to that prefix, so Pending is re-entered before
any outcome resolves. -/
theorem C6_pending_first (h : Hook σ) (s : FetchState α) (t : Transport α) :
    (refetchSync h s).1.loading = true ∧
    ((refetchSync h s).2.2).url = h.url ∧
    ((refetchSync h s).2.2).options = h.options ∧
    (fetchData h t s).1 = settleAttempt t (refetchSync h s).1 :=
  ⟨rfl, rfl, rfl, rfl⟩

/-! ### Claim C7 -/

/-- C7, counterexample to the claim as stated: a completed successful attempt
emits exactly two console lines — the blue attempt-started line and the green
succeeded-with-value line — not three; no failed-with-message line appears. -/
theorem C7_counterexample :
    (fetchData usersHook
        (Transport.respond
          { statusCode := 200, statusText := "OK", body := BodyResult.decoded (1 : Nat) })
        (initialState Nat)).2 =
      [LogLine.info "Fetching data from: https://jsonplaceholder.typicode.com/users",
        LogLine.success "Data fetched successfully!" 1] ∧
    ((fetchData usersHook
        (Transport.respond
          { statusCode := 200, statusText := "OK", body := BodyResult.decoded (1 : Nat) })
        (initialState Nat)).2).length ≠ 3 := by
  decide

/-- C7 (amended): every completed attempt emits exactly two console lines —
the blue attempt-started line for the hook's url followed by exactly one of
the green succeeded-with-value line or the red failed-with-message line.
Three categories of line exist (info/success/error), but no single attempt
emits all three. -/
theorem C7_two_lines (h : Hook σ) (t : Transport α) (s : FetchState α) :
    (fetchData h t s).2 =
      [LogLine.info ("Fetching data from: " ++ h.url), settleLog t] ∧
    ((∃ v, settleLog t = LogLine.success "Data fetched successfully!" v) ∨
      (∃ m, settleLog t = LogLine.error "Error fetching data:" m)) := by
  refine ⟨rfl, ?_⟩
  cases t with
  | reject e => exact Or.inr ⟨e.message, rfl⟩
  | respond r =>
      cases hok : r.ok with
      | true =>
          cases hb : r.body with
          | decoded v =>
              refine Or.inl ⟨v, ?_⟩
              simp [settleLog, hok, hb]
          | jsonRejected e =>
              refine Or.inr ⟨e.message, ?_⟩
              simp [settleLog, hok, hb]
      | false =>
          refine Or.inr ⟨some "Failed to fetch data", ?_⟩
          simp [settleLog, hok]

/-! ### Claim C8 -/

/-- C8, counterexample to the claim as stated: attempt A (a 200 response
decoding 42) starts, attempt B (`fetch` rejects with "network down") starts
before A resolves, B settles first and A settles last.  A — the last-run
completion — succeeded, yet the final state keeps B's failure message, and
the consumer-derived status is Failed: the last completion does not determine
`error`, because the success path never clears it. -/
theorem C8_counterexample :
    attemptSucceeds
      (Transport.respond
        { statusCode := 200, statusText := "OK",
          body := BodyResult.decoded (42 : Nat) }) = true ∧
    raceRun
        (Transport.respond
          { statusCode := 200, statusText := "OK",
            body := BodyResult.decoded (42 : Nat) })
        (Transport.reject { message := some "network down" })
        (initialState Nat) =
      { data := some 42, loading := false, error := some "network down" } ∧
    status (raceRun
        (Transport.respond
          { statusCode := 200, statusText := "OK",
            body := BodyResult.decoded (42 : Nat) })
        (Transport.reject { message := some "network down" })
        (initialState Nat)) = Status.failed := by
  decide

/-- C8 (amended): in a race where attempt B starts after A and settles before
A, the last-run completion (A's) determines `loading` (false) and the single
cell its own outcome writes — `data` with the decoded payload when A reached
`setData`, `error` with the corresponding message when A entered the catch
branch — while the cell A's branch does not write retains whatever the
earlier completion left, so a mixed-outcome race can leave both cells
populated. -/
theorem C8_last_writes (tA tB : Transport α) (s : FetchState α) :
    (raceRun tA tB s).loading = false ∧
    (∀ e, tA = Transport.reject e → (raceRun tA tB s).error = e.message) ∧
    (∀ r, tA = Transport.respond r → r.ok = false →
      (raceRun tA tB s).error = some "Failed to fetch data") ∧
    (∀ r e, tA = Transport.respond r → r.ok = true →
      r.body = BodyResult.jsonRejected e → (raceRun tA tB s).error = e.message) ∧
    (∀ r v, tA = Transport.respond r → r.ok = true →
      r.body = BodyResult.decoded v → (raceRun tA tB s).data = some v) := by
  refine ⟨settleAttempt_loading tA _, ?_, ?_, ?_, ?_⟩
  · intro e hA
    rw [hA]
    rfl
  · intro r hA hok
    rw [hA]
    show (settleAttempt (Transport.respond r) _).error = _
    simp [settleAttempt, hok]
  · intro r e hA hok hb
    rw [hA]
    show (settleAttempt (Transport.respond r) _).error = _
    simp [settleAttempt, hok, hb]
  · intro r v hA hok hb
    rw [hA]
    show (settleAttempt (Transport.respond r) _).data = _
    simp [settleAttempt, hok, hb]

/-- C8 witness: the amended theorem applied to a concrete race in which the
last-settling attempt A rejected with message "m" while B had succeeded with
payload 3 — A's completion fixes `error` and `loading`. -/
theorem C8_last_writes_witness :
    (raceRun (Transport.reject { message := some "m" })
        (Transport.respond
          { statusCode := 200, statusText := "OK", body := BodyResult.decoded (3 : Nat) })
        (initialState Nat)).loading = false ∧
    (raceRun (Transport.reject { message := some "m" })
        (Transport.respond
          { statusCode := 200, statusText := "OK", body := BodyResult.decoded (3 : Nat) })
        (initialState Nat)).error = some "m" :=
  ⟨(C8_last_writes (Transport.reject { message := some "m" })
      (Transport.respond
        { statusCode := 200, statusText := "OK", body := BodyResult.decoded (3 : Nat) })
      (initialState Nat)).1,
    (C8_last_writes (Transport.reject { message := some "m" })
      (Transport.respond
        { statusCode := 200, statusText := "OK", body := BodyResult.decoded (3 : Nat) })
      (initialState Nat)).2.1 { message := some "m" } rfl⟩

/-! ### Claim C9 -/

/-- C9: re-triggering is idempotent on the value — two consecutive attempts
against the same transport behaviour that both reach `setData` (same decoded
response body each time) leave `data` after the second attempt equal to
`data` after the first. -/
theorem C9_idempotent (h : Hook σ) (t : Transport α) (s : FetchState α)
    (hsucc : attemptSucceeds t = true) :
    (fetchData h t (fetchData h t s).1).1.data = (fetchData h t s).1.data := by
  cases t with
  | reject e => exact Bool.noConfusion hsucc
  | respond r =>
      cases hok : r.ok with
      | false =>
          rw [attemptSucceeds] at hsucc
          simp [hok] at hsucc
      | true =>
          cases hb : r.body with
          | jsonRejected e =>
              rw [attemptSucceeds] at hsucc
              simp [hok, hb] at hsucc
          | decoded v =>
              have h1 : ∀ x : FetchState α,
                  ((fetchData h (Transport.respond r) x).1).data = some v := by
                intro x
                rw [fetchData_fst]
                simp [settleAttempt, hok, hb]
              rw [h1, h1]

/-- C9 witness: the theorem applied to two consecutive successful refetches
of the same 200 response decoding 42, from the initial state. -/
theorem C9_idempotent_witness :
    (fetchData usersHook
        (Transport.respond
          { statusCode := 200, statusText := "OK", body := BodyResult.decoded (42 : Nat) })
        (fetchData usersHook
          (Transport.respond
            { statusCode := 200, statusText := "OK",
              body := BodyResult.decoded (42 : Nat) })
          (initialState Nat)).1).1.data =
      (fetchData usersHook
        (Transport.respond
          { statusCode := 200, statusText := "OK", body := BodyResult.decoded (42 : Nat) })
        (initialState Nat)).1.data :=
  C9_idempotent usersHook
    (Transport.respond
      { statusCode := 200, statusText := "OK", body := BodyResult.decoded (42 : Nat) })
    (initialState Nat) (by decide)

/-! ### Claim C10 -/

/-- C10: an attempt that enters the catch branch — transport rejection,
non-success status, or decode error — leaves the `data` cell unchanged (the
catch branch only calls `setError` and the finally block only
`setLoading(false)`), so a value obtained by an earlier successful attempt is
retained and still exposed to the consumer after a later failure. -/
theorem C10_data_preserved (h : Hook σ) (t : Transport α) (s : FetchState α)
    (hfail : attemptSucceeds t = false) :
    (fetchData h t s).1.data = s.data ∧ (fetchData h t s).1.loading = false := by
  rw [fetchData_fst]
  exact ⟨settleAttempt_data_of_fails t (startAttempt s) hfail,
    settleAttempt_loading t (startAttempt s)⟩

/-- C10 witness: the theorem applied to a state holding the earlier payload 5
and a later attempt whose response is a 503 — the payload survives. -/
theorem C10_data_preserved_witness :
    (fetchData usersHook
        (Transport.respond
          { statusCode := 503, statusText := "Service Unavailable",
            body := BodyResult.decoded (0 : Nat) })
        ({ data := some 5, loading := false, error := none } : FetchState Nat)).1.data =
      ({ data := some 5, loading := false, error := none } : FetchState Nat).data ∧
    (fetchData usersHook
        (Transport.respond
          { statusCode := 503, statusText := "Service Unavailable",
            body := BodyResult.decoded (0 : Nat) })
        ({ data := some 5, loading := false, error := none } : FetchState Nat)).1.loading =
      false :=
  C10_data_preserved usersHook
    (Transport.respond
      { statusCode := 503, statusText := "Service Unavailable",
        body := BodyResult.decoded (0 : Nat) })
    { data := some 5, loading := false, error := none } (by decide)
